import Mathlib

/-!
Verification of the spalloc client library (SpiNNakerManchester/spalloc):
a shallow embedding, in Lean 4, of the protocol client and the Job
state-machine waiting logic, together with theorems about the behaviour
of those functions.

The embedding models each Python function over an explicit oracle
environment: network events (lines received, the time each primitive
takes, I/O failures) are supplied by the environment, and the embedded
functions thread an explicit state (socket, buffer, notification queue,
clock) exactly as the Python code threads its object attributes.
Machine time is modelled with exact rationals; loops are given explicit
fuel and a distinguished fuel-exhaustion result, so that every function
is total and executable.
-/

/-- JSON values carried on the wire (the protocol sends one JSON object
per line).  Numbers are modelled as integers; the claims under study
never depend on non-integer numeric payloads. -/
inductive JVal where
  | null
  | bool (b : Bool)
  | int (n : Int)
  | str (s : String)
  | arr (xs : List JVal)
  | obj (fields : List (String × JVal))
deriving Repr

/-- A JSON object line, as decoded by `json.loads` for a protocol line:
an association list from keys to values (Python dicts have unique keys;
lookup takes the first binding). -/
abbrev JObj := List (String × JVal)

/-- Python `"k" in obj` for a decoded JSON object line. -/
def JObj.hasKey (o : JObj) (k : String) : Bool :=
  o.any (fun p => p.1 == k)

/-- Python `obj["k"]` for a decoded JSON object line; only used under a
`hasKey` guard, so the default value for a missing key is never
observed. -/
def JObj.get (o : JObj) (k : String) : JVal :=
  ((o.find? (fun p => p.1 == k)).map (fun p => p.2)).getD .null

/-- Errors raised by `ProtocolClient` methods:
`ProtocolTimeoutError`, `OSError`/`IOError`, and
`SpallocServerException` (src/spalloc/protocol_client.py).  `fuelOut`
is the artifact of bounding loops by fuel and corresponds to no Python
behaviour. -/
inductive PCErr where
  | protocolTimeout
  | osError (msg : String)
  | serverException (v : JVal)
  | fuelOut
deriving Repr

/-- The mutable state of a `ProtocolClient` (src/spalloc/protocol_client.py
`__init__`): the socket (`None` when disconnected, modelled with an
identifying number so that closing the same socket twice would be
observable), the buffer of incomplete line data, and the FIFO
notification queue.  `closedLog` records every `sock.close()` call,
`recvCount` every socket read attempt and `sentCount` every send, so
that theorems can speak about "no bytes on the wire" and "no socket
read"; `time` is the wall clock. -/
structure PCState where
  sock : Option Nat
  buf : String
  notifications : List JObj
  closedLog : List Nat
  time : ℚ
  recvCount : Nat
  sentCount : Nat
deriving Repr

/-- Embeds `ProtocolClient.close` (src/spalloc/protocol_client.py lines
102-107): close the socket if one is open, forget it, and clear the
buffered partial line data.  The notification queue is not touched. -/
def PCState.close (st : PCState) : PCState :=
  match st.sock with
  | some s => { st with sock := none, buf := "", closedLog := st.closedLog ++ [s] }
  | none => { st with sock := none, buf := "" }

/-- Embeds `ProtocolClient.connect` (src/spalloc/protocol_client.py lines
76-100): close any existing connection, then open a fresh socket
(identified by `sid`); the success case is modelled (the claims about
construction take a reachable server as given). -/
def PCState.connect (st : PCState) (sid : Nat) : PCState :=
  let st1 := if st.sock.isSome then st.close else st
  { st1 with sock := some sid }

/-- The network environment seen by one `ProtocolClient`: the k-th
successful socket read yields line `line k` after `dur k` seconds, and
the k-th send takes `sendDur k` seconds. -/
structure PCEnv where
  line : Nat → JObj
  dur : Nat → ℚ
  sendDur : Nat → ℚ

/-- Embeds `ProtocolClient._recv_json` (src/spalloc/protocol_client.py
lines 109-149): raise `OSError` when not connected; otherwise read from
the socket under the given timeout.  The line arrives after
`env.dur recvCount` seconds: within the budget it is returned, past a
positive budget `socket.timeout` is mapped to `ProtocolTimeoutError`,
and past a zero (non-blocking) budget the read fails with a blocking
`OSError` as in Python.  Each call counts one socket read attempt. -/
def recvJson (env : PCEnv) (st : PCState) (tmo : Option ℚ) :
    Except PCErr JObj × PCState :=
  match st.sock with
  | none => (.error (.osError "Not connected!"), st)
  | some _ =>
    let k := st.recvCount
    let dt := env.dur k
    match tmo with
    | none =>
      (.ok (env.line k), { st with time := st.time + dt, recvCount := k + 1 })
    | some t =>
      if dt ≤ t then
        (.ok (env.line k), { st with time := st.time + dt, recvCount := k + 1 })
      else if t ≤ 0 then
        (.error (.osError "would block"), { st with recvCount := k + 1 })
      else
        (.error .protocolTimeout, { st with time := st.time + t, recvCount := k + 1 })

/-- Embeds `ProtocolClient._send_json` (src/spalloc/protocol_client.py
lines 151-181): raise `OSError` when not connected, otherwise send the
line (the claims under study only concern whether a send happened, so
the success case is modelled, taking `env.sendDur sentCount`
seconds). -/
def sendJson (env : PCEnv) (st : PCState) : Except PCErr Unit × PCState :=
  match st.sock with
  | none => (.error (.osError "Not connected!"), st)
  | some _ =>
    (.ok (), { st with time := st.time + env.sendDur st.sentCount,
                       sentCount := st.sentCount + 1 })

/-- Python `min` on two numbers (spelled out so that concrete runs
reduce definitionally). -/
def pyMin (a b : ℚ) : ℚ := if a ≤ b then a else b

/-- Python `max` on two numbers (spelled out so that concrete runs
reduce definitionally). -/
def pyMax (a b : ℚ) : ℚ := if a ≤ b then b else a

/-- Modelled from the spec: `timed_out` from `spalloc/_utils.py`, which
is not among the sources.  Per the spec, a `None` deadline never times
out and a timeout "shrinks monotonically ... so the overall call cannot
exceed the requested deadline": the deadline has expired once the clock
reaches it. -/
def timedOut (now : ℚ) : Option ℚ → Bool
  | none => false
  | some f => f ≤ now

/-- Modelled from the spec: `time_left` from `spalloc/_utils.py`, which
is not among the sources: the remaining (never negative) budget until
the deadline, or `None` for no deadline. -/
def timeLeft (now : ℚ) : Option ℚ → Option ℚ
  | none => none
  | some f => some (pyMax 0 (f - now))

/-- Modelled from the spec: `make_timeout` from `spalloc/_utils.py`,
which is not among the sources: the absolute deadline for a relative
timeout, or `None` for no deadline. -/
def makeTimeout (now : ℚ) (tmo : Option ℚ) : Option ℚ :=
  tmo.map (fun t => now + t)

/-- Embeds the receive loop of `ProtocolClient.call`
(src/spalloc/protocol_client.py lines 213-222): while the deadline has
not expired, read a line; a line with a `"return"` key ends the call
with that value, a line with an `"exception"` key raises
`SpallocServerException` with that value, and any other line is
appended to the notification queue.  Falling off the loop at the
deadline returns Python `None` (modelled as `JVal.null`, exactly what a
`"return": null` reply produces). -/
def callLoop (env : PCEnv) : Nat → PCState → Option ℚ → Except PCErr JVal × PCState
  | 0, st, _ => (.error .fuelOut, st)
  | fuel + 1, st, finish =>
    if timedOut st.time finish then
      (.ok .null, st)
    else
      match recvJson env st (timeLeft st.time finish) with
      | (.error e, st1) => (.error e, st1)
      | (.ok l, st1) =>
        if l.hasKey "return" then
          (.ok (l.get "return"), st1)
        else if l.hasKey "exception" then
          (.error (.serverException (l.get "exception")), st1)
        else
          callLoop env fuel { st1 with notifications := st1.notifications ++ [l] } finish

/-- Embeds `ProtocolClient.call` (src/spalloc/protocol_client.py lines
183-222): send the command, then run the receive loop against the
absolute deadline derived from the requested timeout. -/
def call (env : PCEnv) (fuel : Nat) (st : PCState) (tmo : Option ℚ) :
    Except PCErr JVal × PCState :=
  let finish := makeTimeout st.time tmo
  match sendJson env st with
  | (.error e, st1) => (.error e, st1)
  | (.ok _, st1) => callLoop env fuel st1 finish

/-- Embeds `ProtocolClient.wait_for_notification`
(src/spalloc/protocol_client.py lines 224-260): pop the oldest queued
notification if any; else return `None` when the timeout is strictly
negative; else perform one socket read under the timeout. -/
def waitForNotification (env : PCEnv) (st : PCState) (tmo : Option ℚ) :
    Except PCErr (Option JObj) × PCState :=
  match st.notifications with
  | n :: rest => (.ok (some n), { st with notifications := rest })
  | [] =>
    match tmo with
    | some t =>
      if t < 0 then (.ok none, st)
      else
        match recvJson env st (some t) with
        | (.ok l, st1) => (.ok (some l), st1)
        | (.error e, st1) => (.error e, st1)
    | none =>
      match recvJson env st none with
      | (.ok l, st1) => (.ok (some l), st1)
      | (.error e, st1) => (.error e, st1)

/-- The four acceptable keyword sets of `ProtocolClient.where_is`
(src/spalloc/protocol_client.py lines 329-333). -/
def acceptableWhereIsKwargs : List (List String) :=
  [["machine", "x", "y", "z"],
   ["machine", "cabinet", "frame", "board"],
   ["machine", "chip_x", "chip_y"],
   ["job_id", "chip_x", "chip_y"]]

/-- Equality of keyword sets (Python compares `frozenset`s; keyword
argument names are distinct, so mutual containment is set equality). -/
def kwSetEq (a b : List String) : Bool :=
  a.all (fun x => b.contains x) && b.all (fun x => a.contains x)

/-- Embeds `ProtocolClient.where_is` (src/spalloc/protocol_client.py
lines 327-338): if the keyword set is not one of the four acceptable
sets, raise `SpallocServerException` without touching the wire;
otherwise perform the call. -/
def whereIs (env : PCEnv) (fuel : Nat) (st : PCState) (kwargs : List String)
    (tmo : Option ℚ) : Except PCErr JVal × PCState :=
  if acceptableWhereIsKwargs.any (fun s => kwSetEq kwargs s) then
    call env fuel st tmo
  else
    (.error (.serverException (.str "Invalid arguments")), st)

/-- Embeds `ProtocolClient.create_job` (src/spalloc/protocol_client.py
lines 278-283): if no `owner` keyword is supplied, raise
`SpallocServerException` without touching the wire; otherwise perform
the call.  `kwargKeys` is the set of supplied keyword names. -/
def createJob (env : PCEnv) (fuel : Nat) (st : PCState) (kwargKeys : List String)
    (tmo : Option ℚ) : Except PCErr JVal × PCState :=
  if kwargKeys.contains "owner" then
    call env fuel st tmo
  else
    (.error (.serverException (.str "owner must be specified for all jobs.")), st)

/-- Modelled from the spec: the `JobState` enumeration from
`spalloc/states.py`, which is not among the sources.  The spec (section
3) defines exactly these five states. -/
inductive JobState where
  | unknown
  | queued
  | power
  | ready
  | destroyed
deriving DecidableEq, Repr

/-- Embeds `_JobStateTuple` (src/spalloc/job.py lines 642-665): the
snapshot returned by `Job._get_state`. -/
structure JobStateTuple where
  state : JobState
  power : Option Bool
  keepalive : Option ℚ
  reason : Option String
deriving DecidableEq, Repr

/-- The exception kinds a `ProtocolClient` RPC can raise into `Job`
code: `ProtocolTimeoutError`, `IOError`/`OSError`, and
`SpallocServerException` (the latter is not in the tuple of exceptions
`Job.wait_for_state_change` catches). -/
inductive PyExc where
  | protocolTimeout
  | osError
  | serverException
deriving DecidableEq, Repr

/-- The result of one client RPC as seen by `Job` code. -/
inductive Outcome (α : Type) where
  | ok (a : α)
  | exc (e : PyExc)
deriving DecidableEq, Repr

/-- The oracle environment for `Job`-level operations: for each client
primitive, the outcome and duration of its k-th invocation.
`wait_for_notification` is special-cased: the k-th wait has a
notification arriving after `waitNotifD k` seconds (delivered if within
the budget, otherwise the wait raises `ProtocolTimeoutError`), unless
`waitNotifBroken k` marks the connection as failing that wait with
`OSError`.  `reconnectD k` is the time consumed by the k-th
close/sleep/reconnect recovery block beyond the sleep itself. -/
structure JobEnv where
  getStateR : Nat → Outcome JobStateTuple
  getStateD : Nat → ℚ
  notifyR : Nat → Outcome Unit
  notifyD : Nat → ℚ
  keepaliveR : Nat → Outcome Unit
  keepaliveD : Nat → ℚ
  waitNotifBroken : Nat → Bool
  waitNotifD : Nat → ℚ
  reconnectD : Nat → ℚ

/-- The evolving world of a `Job`-level run: the clock and how many
times each primitive has been invoked. -/
structure JobWorld where
  time : ℚ
  nGetState : Nat
  nNotify : Nat
  nKeepalive : Nat
  nWaitNotif : Nat
  nReconnect : Nat
deriving DecidableEq, Repr

/-- The per-job configuration that `Job.wait_for_state_change` reads:
`self._keepalive` and `self._reconnect_delay` (src/spalloc/job.py
`__init__`). -/
structure JobCfg where
  keepalive : Option ℚ
  reconnectDelay : ℚ
deriving DecidableEq, Repr

/-- One invocation of `Job._get_state` (src/spalloc/job.py lines
352-366), abstracted by the oracle. -/
def JobWorld.getState (env : JobEnv) (w : JobWorld) :
    Outcome JobStateTuple × JobWorld :=
  (env.getStateR w.nGetState,
   { w with time := w.time + env.getStateD w.nGetState, nGetState := w.nGetState + 1 })

/-- One invocation of `self._client.notify_job` from
`Job.wait_for_state_change`, abstracted by the oracle. -/
def JobWorld.notify (env : JobEnv) (w : JobWorld) : Outcome Unit × JobWorld :=
  (env.notifyR w.nNotify,
   { w with time := w.time + env.notifyD w.nNotify, nNotify := w.nNotify + 1 })

/-- One invocation of `self._client.job_keepalive` from
`Job.wait_for_state_change`, abstracted by the oracle. -/
def JobWorld.keepaliveCall (env : JobEnv) (w : JobWorld) : Outcome Unit × JobWorld :=
  (env.keepaliveR w.nKeepalive,
   { w with time := w.time + env.keepaliveD w.nKeepalive, nKeepalive := w.nKeepalive + 1 })

/-- One invocation of `self._client.wait_for_notification(budget)` from
`Job.wait_for_state_change`: the next notification arrives after
`waitNotifD` seconds, and the wait succeeds exactly when that is within
the budget; otherwise it raises `ProtocolTimeoutError` after blocking
for the whole budget.  A broken connection raises `OSError` instead. -/
def JobWorld.waitNotif (env : JobEnv) (w : JobWorld) (budget : ℚ) :
    Outcome Unit × JobWorld :=
  let k := w.nWaitNotif
  if env.waitNotifBroken k then
    (.exc .osError,
     { w with time := w.time + pyMin (env.waitNotifD k) budget, nWaitNotif := k + 1 })
  else if env.waitNotifD k ≤ budget then
    (.ok (), { w with time := w.time + env.waitNotifD k, nWaitNotif := k + 1 })
  else
    (.exc .protocolTimeout, { w with time := w.time + budget, nWaitNotif := k + 1 })

/-- The loop condition `finish_time is None or finish_time > time.time()`
used by both wait loops in src/spalloc/job.py. -/
def stillBefore : Option ℚ → ℚ → Bool
  | none, _ => true
  | some f, t => decide (t < f)

/-- Embeds the `except` recovery block of `Job.wait_for_state_change`
(src/spalloc/job.py lines 564-576): close the connection, sleep for the
reconnect delay clamped to the remaining deadline (never negative), and
attempt one reconnect (`Job._reconnect` swallows failures). -/
def reconnectStep (env : JobEnv) (cfg : JobCfg) (finish : Option ℚ)
    (w : JobWorld) : JobWorld :=
  let delay := match finish with
    | some f => pyMin (f - w.time) cfg.reconnectDelay
    | none => cfg.reconnectDelay
  { w with time := w.time + pyMax 0 delay + env.reconnectD w.nReconnect,
           nReconnect := w.nReconnect + 1 }

/-- How the innermost keepalive-and-wait loop of
`Job.wait_for_state_change` (src/spalloc/job.py lines 531-563) can end. -/
inductive InnerRes where
  | breakOut
  | returnOld
  | raised (e : PyExc)
  | pyTypeError
  | fuelOut
deriving DecidableEq, Repr

/-- Embeds the innermost loop of `Job.wait_for_state_change`
(src/spalloc/job.py lines 534-563): while the deadline has not passed,
send a keepalive (exceptions propagate to the outer handler), compute
the wait budget (`min` of half the keepalive interval and the time
left; with no deadline and no keepalive interval the Python code would
raise `TypeError` on `None / 2.0`), and if the budget is non-negative
wait for a notification: delivery breaks out to re-query the state, a
wait timeout is caught by the inner handler and the loop resends a
keepalive, and an `OSError` propagates.  Exhausting the loop condition
returns the old state (the `while`-`else` branch). -/
def wfscInner (env : JobEnv) (cfg : JobCfg) (finish : Option ℚ) :
    Nat → JobWorld → InnerRes × JobWorld
  | 0, w => (.fuelOut, w)
  | fuel + 1, w =>
    if stillBefore finish w.time then
      match w.keepaliveCall env with
      | (.exc e, w1) => (.raised e, w1)
      | (.ok _, w1) =>
        let wt? : Option ℚ :=
          match finish, cfg.keepalive with
          | some f, some ka => some (pyMin (ka / 2) (f - w1.time))
          | none, some ka => some (ka / 2)
          | none, none => none
          | some f, none => some (f - w1.time)
        match wt? with
        | none => (.pyTypeError, w1)
        | some wt =>
          if 0 ≤ wt then
            match w1.waitNotif env wt with
            | (.ok _, w2) => (.breakOut, w2)
            | (.exc .protocolTimeout, w2) => wfscInner env cfg finish fuel w2
            | (.exc e, w2) => (.raised e, w2)
          else
            wfscInner env cfg finish fuel w1
    else
      (.returnOld, w)

/-- How the middle (state-querying) loop of `Job.wait_for_state_change`
(src/spalloc/job.py lines 524-563) can end. -/
inductive MidRes where
  | retState (s : JobState)
  | returnOld
  | fellThrough
  | raised (e : PyExc)
  | pyTypeError
  | fuelOut
deriving DecidableEq, Repr

/-- Embeds the middle loop of `Job.wait_for_state_change`
(src/spalloc/job.py lines 524-563): while the deadline has not passed,
query the job state (exceptions propagate); a state differing from
`old` is returned immediately, otherwise run the inner
keepalive-and-wait loop and, on a notification, loop to query again.
Exhausting the loop condition falls through to the outer loop. -/
def wfscMid (env : JobEnv) (cfg : JobCfg) (old : JobState) (finish : Option ℚ) :
    Nat → JobWorld → MidRes × JobWorld
  | 0, w => (.fuelOut, w)
  | fuel + 1, w =>
    if stillBefore finish w.time then
      match w.getState env with
      | (.exc e, w1) => (.raised e, w1)
      | (.ok t, w1) =>
        if t.state ≠ old then
          (.retState t.state, w1)
        else
          match wfscInner env cfg finish (fuel + 1) w1 with
          | (.breakOut, w2) => wfscMid env cfg old finish fuel w2
          | (.returnOld, w2) => (.returnOld, w2)
          | (.raised e, w2) => (.raised e, w2)
          | (.pyTypeError, w2) => (.pyTypeError, w2)
          | (.fuelOut, w2) => (.fuelOut, w2)
    else
      (.fellThrough, w)

/-- Errors with which `Job.wait_for_state_change` can terminate
abnormally: an exception the retry handler does not catch
(`SpallocServerException`), the Python `TypeError` latent in the wait
budget computation, or fuel exhaustion (a model artifact). -/
inductive WfscErr where
  | uncaught (e : PyExc)
  | pyTypeError
  | fuelOut
deriving DecidableEq, Repr

/-- Embeds the outer loop of `Job.wait_for_state_change`
(src/spalloc/job.py lines 517-580): while the deadline has not passed,
subscribe with `notify_job` and run the middle loop; `IOError`,
`OSError` and `ProtocolTimeoutError` from the `try` body trigger the
close/sleep/reconnect recovery and another round, while
`SpallocServerException` propagates.  Exhausting the loop condition
returns the old state (lines 578-580). -/
def wfscOuter (env : JobEnv) (cfg : JobCfg) (old : JobState) (finish : Option ℚ) :
    Nat → JobWorld → Except WfscErr JobState × JobWorld
  | 0, w => (.error .fuelOut, w)
  | fuel + 1, w =>
    if stillBefore finish w.time then
      match w.notify env with
      | (.exc .serverException, w1) => (.error (.uncaught .serverException), w1)
      | (.exc _, w1) =>
        wfscOuter env cfg old finish fuel (reconnectStep env cfg finish w1)
      | (.ok _, w1) =>
        match wfscMid env cfg old finish (fuel + 1) w1 with
        | (.retState s, w2) => (.ok s, w2)
        | (.returnOld, w2) => (.ok old, w2)
        | (.fellThrough, w2) => wfscOuter env cfg old finish fuel w2
        | (.raised .serverException, w2) => (.error (.uncaught .serverException), w2)
        | (.raised _, w2) =>
          wfscOuter env cfg old finish fuel (reconnectStep env cfg finish w2)
        | (.pyTypeError, w2) => (.error .pyTypeError, w2)
        | (.fuelOut, w2) => (.error .fuelOut, w2)
    else
      (.ok old, w)

/-- Embeds `Job.wait_for_state_change` (src/spalloc/job.py lines
498-580): fix the absolute deadline from the requested timeout and run
the outer loop. -/
def waitForStateChange (env : JobEnv) (cfg : JobCfg) (old : JobState)
    (tmo : Option ℚ) (fuel : Nat) (w : JobWorld) :
    Except WfscErr JobState × JobWorld :=
  wfscOuter env cfg old (makeTimeout w.time tmo) fuel w

/-- Errors with which `Job.wait_until_ready` can terminate:
`JobDestroyedError` with its reason, `StateChangeTimeoutError`, an
exception propagating from a state query or from
`wait_for_state_change`, the latent `TypeError`, or fuel exhaustion (a
model artifact). -/
inductive WurErr where
  | jobDestroyed (reason : Option String)
  | stateChangeTimeout
  | uncaught (e : PyExc)
  | pyTypeError
  | fuelOut
deriving DecidableEq, Repr

/-- Embeds the loop of `Job.wait_until_ready` (src/spalloc/job.py lines
598-629): while the deadline has not passed, fetch the state if none is
known, then classify it: `ready` returns; `destroyed` raises
`JobDestroyedError` with the reason taken from a fresh state fetch;
`unknown` raises `JobDestroyedError` with a fixed message; `queued` and
`power` call `wait_for_state_change` with the remaining time budget and
loop with its result.  Exhausting the loop condition raises
`StateChangeTimeoutError` (line 629). -/
def wurLoop (env : JobEnv) (cfg : JobCfg) (finish : Option ℚ) :
    Nat → JobWorld → Option JobState → Except WurErr Unit × JobWorld
  | 0, w, _ => (.error .fuelOut, w)
  | fuel + 1, w, cur? =>
    if stillBefore finish w.time then
      match cur? with
      | some c =>
        if c = .ready then
          (.ok (), w)
        else if c = .destroyed then
          match w.getState env with
          | (.exc e, w2) => (.error (.uncaught e), w2)
          | (.ok t2, w2) => (.error (.jobDestroyed t2.reason), w2)
        else if c = .unknown then
          (.error (.jobDestroyed (some "Server no longer recognises job.")), w)
        else
          let tl : Option ℚ := match finish with
            | none => none
            | some f => some (f - w.time)
          match waitForStateChange env cfg c tl (fuel + 1) w with
          | (.ok s, w2) => wurLoop env cfg finish fuel w2 (some s)
          | (.error (.uncaught e), w2) => (.error (.uncaught e), w2)
          | (.error .pyTypeError, w2) => (.error .pyTypeError, w2)
          | (.error .fuelOut, w2) => (.error .fuelOut, w2)
      | none =>
        match w.getState env with
        | (.exc e, w1) => (.error (.uncaught e), w1)
        | (.ok t, w1) =>
          if t.state = .ready then
            (.ok (), w1)
          else if t.state = .destroyed then
            match w1.getState env with
            | (.exc e, w2) => (.error (.uncaught e), w2)
            | (.ok t2, w2) => (.error (.jobDestroyed t2.reason), w2)
          else if t.state = .unknown then
            (.error (.jobDestroyed (some "Server no longer recognises job.")), w1)
          else
            let tl : Option ℚ := match finish with
              | none => none
              | some f => some (f - w1.time)
            match waitForStateChange env cfg t.state tl (fuel + 1) w1 with
            | (.ok s, w2) => wurLoop env cfg finish fuel w2 (some s)
            | (.error (.uncaught e), w2) => (.error (.uncaught e), w2)
            | (.error .pyTypeError, w2) => (.error .pyTypeError, w2)
            | (.error .fuelOut, w2) => (.error .fuelOut, w2)
    else
      (.error .stateChangeTimeout, w)

/-- Embeds `Job.wait_until_ready` (src/spalloc/job.py lines 582-629):
fix the absolute deadline from the requested timeout and run the loop
with no state known yet. -/
def waitUntilReady (env : JobEnv) (cfg : JobCfg) (tmo : Option ℚ)
    (fuel : Nat) (w : JobWorld) : Except WurErr Unit × JobWorld :=
  wurLoop env cfg (makeTimeout w.time tmo) fuel w none

/-- Embeds `VERSION_RANGE_START` (src/spalloc/job.py line 17). -/
def VERSION_RANGE_START : List Nat := [0, 0, 2]

/-- Embeds `VERSION_RANGE_STOP` (src/spalloc/job.py line 18). -/
def VERSION_RANGE_STOP : List Nat := [2, 0, 0]

/-- Embeds `tuple(map(int, v.split(".")[:3]))` from
`Job._assert_compatible_version` (src/spalloc/job.py line 275): split
on dots, keep the first three components, and parse each as an integer.
`none` models the `ValueError` that Python `int` raises on a
non-numeric component. -/
def parseVersionTriple (v : String) : Option (List Nat) :=
  ((v.splitOn ".").take 3).mapM String.toNat?

/-- Python lexicographic `<` on integer tuples (a strict prefix is
smaller). -/
def tupleLt : List Nat → List Nat → Bool
  | [], [] => false
  | [], _ :: _ => true
  | _ :: _, [] => false
  | a :: as, b :: bs =>
    if a < b then true else if b < a then false else tupleLt as bs

/-- Python `<=` on integer tuples, derived from the strict order of the
total lexicographic comparison. -/
def tupleLe (a b : List Nat) : Bool :=
  !tupleLt b a

/-- Errors with which the embedded `Job.__init__` can terminate:
`ValueError` with its message, the `JobDestroyedError` raised when
resuming a job that is gone, and the `ValueError` Python `int` raises
inside the version parse. -/
inductive JobInitErr where
  | valueError (msg : String)
  | jobDestroyedResume
  | versionParseError
deriving DecidableEq, Repr

/-- Embeds `Job._assert_compatible_version` (src/spalloc/job.py lines
272-281): parse the first three dot-separated integer components of the
server version and require
`VERSION_RANGE_START <= v_ints < VERSION_RANGE_STOP`; on failure the
connection is closed and `ValueError` raised. -/
def assertCompatibleVersion (v : String) (st : PCState) :
    Except JobInitErr Unit × PCState :=
  match parseVersionTriple v with
  | none => (.error .versionParseError, st)
  | some t =>
    if tupleLe VERSION_RANGE_START t && tupleLt t VERSION_RANGE_STOP then
      (.ok (), st)
    else
      (.error (.valueError
        ("Server version " ++ v ++ " is not compatible with this client.")),
       st.close)

/-- A network action performed during `Job.__init__`, recorded in order
so that theorems can speak about what I/O precedes a raise. -/
inductive NetAction where
  | connectTo
  | rpc (command : String)
deriving DecidableEq, Repr

/-- The effective constructor arguments of `Job.__init__`
(src/spalloc/job.py lines 151-233) after merging keyword arguments with
configuration values: exactly the fields the validation logic reads. -/
structure JobArgs where
  hostname : Option String
  owner : Option String
  resumeJobId : Option Nat
  machine : Option String
  tags : Option (List String)
deriving DecidableEq, Repr

/-- The server as seen by `Job.__init__`: its advertised version
string, the job id it allocates, and the state snapshot it reports for
a resumed job. -/
structure JobInitEnv where
  serverVersion : String
  createdId : Nat
  resumeState : JobStateTuple

/-- Embeds the construction sequence of `Job.__init__`
(src/spalloc/job.py lines 151-243): require a hostname; connect; check
the server version (closing the connection and raising on
incompatibility); then either resume an existing job id (raising
`JobDestroyedError` when its state is `unknown` or `destroyed`) or
validate `owner` (required) and the `machine`/`tags` exclusivity and
issue `create_job`.  Returns the job id, the final client state, and
the ordered list of network actions performed. -/
def jobInit (env : JobInitEnv) (a : JobArgs) (pc : PCState) (sid : Nat) :
    Except JobInitErr Nat × PCState × List NetAction :=
  match a.hostname with
  | none => (.error (.valueError "A hostname must be specified."), pc, [])
  | some _ =>
    let pc1 := pc.connect sid
    let tr : List NetAction := [.connectTo, .rpc "version"]
    match assertCompatibleVersion env.serverVersion pc1 with
    | (.error e, pc2) => (.error e, pc2, tr)
    | (.ok _, pc2) =>
      match a.resumeJobId with
      | some r =>
        let tr2 := tr ++ [.rpc "get_job_state"]
        if env.resumeState.state = .unknown ∨ env.resumeState.state = .destroyed then
          (.error .jobDestroyedResume, pc2, tr2)
        else
          (.ok r, pc2, tr2)
      | none =>
        match a.owner with
        | none => (.error (.valueError "An owner must be specified."), pc2, tr)
        | some _ =>
          if a.tags.isSome && a.machine.isSome then
            (.error (.valueError "Only one of tags and machine may be specified."),
             pc2, tr)
          else
            (.ok env.createdId, pc2, tr ++ [.rpc "create_job"])

/-- Embeds `Job.close` (src/spalloc/job.py lines 321-333) at the state
level: signal the stop event, join the keepalive thread, and close the
client connection. -/
structure JobHandle where
  stopSet : Bool
  threadJoined : Bool
  client : PCState
deriving Repr

/-- Embeds `Job.close` (src/spalloc/job.py lines 321-333): set the stop
event, join the background thread, disconnect the client. -/
def JobHandle.close (j : JobHandle) : JobHandle :=
  { stopSet := true, threadJoined := true, client := j.client.close }

/-- A freshly connected client state used as concrete input in
theorems below. -/
def pcConnected0 : PCState :=
  { sock := some 0, buf := "", notifications := [], closedLog := [],
    time := 0, recvCount := 0, sentCount := 0 }

/-- A disconnected client state used as concrete input in theorems
below. -/
def pcDisconnected0 : PCState :=
  { sock := none, buf := "", notifications := [], closedLog := [],
    time := 0, recvCount := 0, sentCount := 0 }

/-- A network environment in which every line arrives instantly. -/
def envInstant : PCEnv :=
  { line := fun _ => [], dur := fun _ => 0, sendDur := fun _ => 0 }

/-- A network environment whose first reply line is a notification and
whose second carries a return value. -/
def envNotifThenReturn : PCEnv :=
  { line := fun k =>
      if k = 0 then [("jobs_changed", .arr [.int 1])] else [("return", .int 42)],
    dur := fun _ => 0, sendDur := fun _ => 0 }

/-- A network environment that sends only notifications: the first two
arrive after 6 and 4 seconds, any further line is far away. -/
def envOnlyNotifications : PCEnv :=
  { line := fun _ => [("jobs_changed", .arr [])],
    dur := fun k => if k = 0 then 6 else if k = 1 then 4 else 100,
    sendDur := fun _ => 0 }

/-- A network environment whose first reply line returns JSON `null`. -/
def envReturnNull : PCEnv :=
  { line := fun _ => [("return", .null)], dur := fun _ => 0, sendDur := fun _ => 0 }

/-- A snapshot of a queued job. -/
def tupQueued : JobStateTuple :=
  { state := .queued, power := some false, keepalive := some 10, reason := none }

/-- A snapshot of a ready job. -/
def tupReady : JobStateTuple :=
  { state := .ready, power := some true, keepalive := some 10, reason := none }

/-- A snapshot of a job destroyed for want of boards, as in the spec
scenario. -/
def tupDestroyed : JobStateTuple :=
  { state := .destroyed, power := none, keepalive := none,
    reason := some "out of boards" }

/-- A snapshot of a job the server no longer knows. -/
def tupUnknown : JobStateTuple :=
  { state := .unknown, power := none, keepalive := none, reason := none }

/-- A job oracle in which every RPC succeeds in one second, the job
stays queued, and no notification ever arrives in time. -/
def jenvQueued : JobEnv :=
  { getStateR := fun _ => .ok tupQueued, getStateD := fun _ => 1,
    notifyR := fun _ => .ok (), notifyD := fun _ => 1,
    keepaliveR := fun _ => .ok (), keepaliveD := fun _ => 1,
    waitNotifBroken := fun _ => false, waitNotifD := fun _ => 100,
    reconnectD := fun _ => 0 }

/-- The oracle of `jenvQueued` with the job always reported ready. -/
def jenvReady : JobEnv :=
  { jenvQueued with getStateR := fun _ => .ok tupReady }

/-- The oracle of `jenvQueued` with the job always reported destroyed
with reason "out of boards". -/
def jenvDestroyed : JobEnv :=
  { jenvQueued with getStateR := fun _ => .ok tupDestroyed }

/-- The oracle of `jenvQueued` with the job always reported unknown. -/
def jenvUnknown : JobEnv :=
  { jenvQueued with getStateR := fun _ => .ok tupUnknown }

/-- The initial job world: clock at zero, no primitive invoked yet. -/
def jw0 : JobWorld :=
  { time := 0, nGetState := 0, nNotify := 0, nKeepalive := 0,
    nWaitNotif := 0, nReconnect := 0 }

/-- A job configuration with a ten-second keepalive and a one-second
reconnect delay. -/
def jcfg0 : JobCfg := { keepalive := some 10, reconnectDelay := 1 }

/-- A server offering exactly the oldest supported version. -/
def jiEnvStart : JobInitEnv :=
  { serverVersion := "0.0.2", createdId := 7, resumeState := tupQueued }

/-- A server offering exactly the first unsupported version. -/
def jiEnvStop : JobInitEnv :=
  { serverVersion := "2.0.0", createdId := 7, resumeState := tupQueued }

/-- Well-formed constructor arguments for creating a new job. -/
def jaCreateOk : JobArgs :=
  { hostname := some "spalloc", owner := some "me", resumeJobId := none,
    machine := none, tags := none }

/-- Constructor arguments for creating a new job with the owner
missing. -/
def jaNoOwner : JobArgs :=
  { hostname := some "spalloc", owner := none, resumeJobId := none,
    machine := none, tags := none }

/-- Constructor arguments supplying both a machine and tags. -/
def jaMachineAndTags : JobArgs :=
  { hostname := some "spalloc", owner := some "me", resumeJobId := none,
    machine := some "m", tags := some ["default"] }

/-- A connected client state holding one queued notification. -/
def pcWithNotif : PCState :=
  { sock := some 0, buf := "", notifications := [[("jobs_changed", .arr [])]],
    closedLog := [], time := 0, recvCount := 0, sentCount := 0 }

/-- How an abnormal `wait_for_state_change` outcome surfaces from
`wait_until_ready`, which catches nothing: each error propagates
unchanged. -/
def wurErrOfWfsc : WfscErr -> WurErr
  | .uncaught e => .uncaught e
  | .pyTypeError => .pyTypeError
  | .fuelOut => .fuelOut

theorem pcClose_idem (st : PCState) : st.close.close = st.close := by
  cases st with
  | mk sock buf notifications closedLog time recvCount sentCount =>
    cases sock <;> rfl

/-- C8: `close()` is idempotent on both the transport and the Job: a
second `close` changes nothing observable (in particular the log of
`sock.close()` calls is unchanged, so the socket is not closed twice
and no exception is raised); `close` clears the buffered partial line
data but leaves the pending-notification queue untouched. -/
theorem close_idempotent_clears_buffer_keeps_notifications :
    (∀ st : PCState, st.close.close = st.close) ∧
    (∀ st : PCState, st.close.buf = "" ∧ st.close.notifications = st.notifications) ∧
    (∀ j : JobHandle, j.close.close = j.close) := by
  refine ⟨pcClose_idem, ?_, ?_⟩
  · intro st
    cases st with
    | mk sock buf notifications closedLog time recvCount sentCount =>
      cases sock <;> exact ⟨rfl, rfl⟩
  · intro j
    cases j with
    | mk stopSet threadJoined client =>
      simp only [JobHandle.close]
      rw [pcClose_idem]

/-- C4 fails as stated: with an empty notification queue and a zero
timeout, `wait_for_notification` does not return `None` without
attempting a socket read — the code short-circuits only on a strictly
negative timeout, so at zero it performs a read (here the read is
attempted: `recvCount` grows). -/
theorem wait_for_notification_zero_counterexample :
    ¬ ((waitForNotification envInstant pcConnected0 (some 0)).1 = .ok none ∧
       (waitForNotification envInstant pcConnected0 (some 0)).2.recvCount =
         pcConnected0.recvCount) := by
  intro h
  have h2 := h.2
  rw [show (waitForNotification envInstant pcConnected0 (some 0)).2.recvCount = 1 by
        with_unfolding_all rfl] at h2
  exact absurd h2 (by decide)

/-- C4 amended: with an empty queue, a strictly negative timeout
returns `None` immediately with the transport untouched (no socket
read); a zero timeout instead attempts one (non-blocking) socket read;
and with a non-empty queue the oldest queued notification is popped and
returned. -/
theorem wait_for_notification_amended :
    (∀ (env : PCEnv) (st : PCState) (t : ℚ), st.notifications = [] → t < 0 →
       waitForNotification env st (some t) = (.ok none, st)) ∧
    (∀ (env : PCEnv) (st : PCState) (tmo : Option ℚ) (n : JObj) (rest : List JObj),
       st.notifications = n :: rest →
       waitForNotification env st tmo =
         (.ok (some n), { st with notifications := rest })) ∧
    (∀ (env : PCEnv) (st : PCState) (s : Nat), st.notifications = [] →
       st.sock = some s →
       (waitForNotification env st (some 0)).2.recvCount = st.recvCount + 1) := by
  refine ⟨?_, ?_, ?_⟩
  · intro env st t hq ht
    simp only [waitForNotification, hq]
    rw [if_pos ht]
  · intro env st tmo n rest hq
    simp only [waitForNotification, hq]
  · intro env st s hq hs
    simp only [waitForNotification, hq]
    rw [if_neg (by norm_num : ¬ (0:ℚ) < 0)]
    simp only [recvJson, hs]
    split_ifs <;> rfl

/-- Witness for the amended C4 at concrete inputs. -/
theorem wait_for_notification_amended_witness :
    waitForNotification envInstant pcConnected0 (some (-1)) = (.ok none, pcConnected0) ∧
    waitForNotification envInstant pcWithNotif none =
      (.ok (some [("jobs_changed", .arr [])]), { pcWithNotif with notifications := [] }) ∧
    (waitForNotification envInstant pcConnected0 (some 0)).2.recvCount =
      pcConnected0.recvCount + 1 :=
  ⟨wait_for_notification_amended.1 envInstant pcConnected0 (-1) rfl (by norm_num),
   wait_for_notification_amended.2.1 envInstant pcWithNotif none
     [("jobs_changed", .arr [])] [] rfl,
   wait_for_notification_amended.2.2 envInstant pcConnected0 0 rfl rfl⟩

theorem kwSetEq_iff (a b : List String) :
    kwSetEq a b = true ↔ (∀ x, x ∈ a ↔ x ∈ b) := by
  simp only [kwSetEq, Bool.and_eq_true, List.all_eq_true, List.elem_iff]
  constructor
  · rintro ⟨h1, h2⟩ x
    exact ⟨fun hx => h1 x hx, fun hx => h2 x hx⟩
  · intro h
    exact ⟨fun x hx => (h x).1 hx, fun x hx => (h x).2 hx⟩

/-- C6: `where_is` accepts exactly the four keyword sets
(`kwSetEq` is genuine set equality, first conjunct): an accepted
keyword set proceeds to the wire call, and any other keyword set ends
in the client-side validation raise (the code spells it as a
`SpallocServerException` raised locally) with the client state
untouched — in particular nothing was sent on the wire. -/
theorem where_is_keyword_set_validation :
    (∀ a b : List String, kwSetEq a b = true ↔ (∀ x, x ∈ a ↔ x ∈ b)) ∧
    (∀ (env : PCEnv) (fuel : Nat) (st : PCState) (kws : List String) (tmo : Option ℚ),
       acceptableWhereIsKwargs.any (fun s => kwSetEq kws s) = true →
       whereIs env fuel st kws tmo = call env fuel st tmo) ∧
    (∀ (env : PCEnv) (fuel : Nat) (st : PCState) (kws : List String) (tmo : Option ℚ),
       acceptableWhereIsKwargs.any (fun s => kwSetEq kws s) = false →
       whereIs env fuel st kws tmo =
         (.error (.serverException (.str "Invalid arguments")), st)) := by
  refine ⟨kwSetEq_iff, ?_, ?_⟩
  · intro env fuel st kws tmo h
    simp only [whereIs, h, if_true]
  · intro env fuel st kws tmo h
    simp only [whereIs, h]
    rw [if_neg (by simp)]

/-- Witness for C6: the malformed keyword set of the spec scenario
(`z` missing) is rejected with the state untouched, and a permutation
of an accepted keyword set proceeds to the call. -/
theorem where_is_keyword_set_validation_witness :
    whereIs envInstant 1 pcConnected0 ["machine", "x", "y"] none =
      (.error (.serverException (.str "Invalid arguments")), pcConnected0) ∧
    whereIs envInstant 1 pcConnected0 ["z", "machine", "x", "y"] none =
      call envInstant 1 pcConnected0 none :=
  ⟨where_is_keyword_set_validation.2.2 envInstant 1 pcConnected0 ["machine", "x", "y"]
     none (by with_unfolding_all decide),
   where_is_keyword_set_validation.2.1 envInstant 1 pcConnected0 ["z", "machine", "x", "y"]
     none (by with_unfolding_all decide)⟩

/-- C3: the version gate is half-open on semantic-version triples: with
the parsed triple available, the gate passes exactly when
`VERSION_RANGE_START <= triple < VERSION_RANGE_STOP` (lexicographic,
after truncation to the first three dot-separated integer components);
a triple equal to `VERSION_RANGE_START` passes with the connection left
alone, a triple equal to `VERSION_RANGE_STOP` raises the
version-incompatibility `ValueError` with the connection closed; and at
the construction level a server advertising exactly the start version
yields a constructed job while one advertising exactly the stop version
fails construction with the connection closed. -/
theorem version_gate_half_open :
    (∀ (v : String) (t : List Nat) (st : PCState), parseVersionTriple v = some t →
       ((assertCompatibleVersion v st).1 = .ok () ↔
         (tupleLe VERSION_RANGE_START t && tupleLt t VERSION_RANGE_STOP) = true)) ∧
    (∀ (v : String) (st : PCState), parseVersionTriple v = some VERSION_RANGE_START →
       assertCompatibleVersion v st = (.ok (), st)) ∧
    (∀ (v : String) (st : PCState), parseVersionTriple v = some VERSION_RANGE_STOP →
       assertCompatibleVersion v st =
         (.error (.valueError
            ("Server version " ++ v ++ " is not compatible with this client.")),
          st.close) ∧ (assertCompatibleVersion v st).2.sock = none) ∧
    ((jobInit jiEnvStart jaCreateOk pcDisconnected0 0).1 = .ok 7 ∧
     (jobInit jiEnvStop jaCreateOk pcDisconnected0 0).1 =
       .error (.valueError "Server version 2.0.0 is not compatible with this client.") ∧
     (jobInit jiEnvStop jaCreateOk pcDisconnected0 0).2.1.sock = none) := by
  refine ⟨?_, ?_, ?_, ?_, ?_, ?_⟩
  · intro v t st hp
    simp only [assertCompatibleVersion, hp]
    split_ifs with h
    · simp [h]
    · simp only [Bool.not_eq_true] at h
      simp [h]
  · intro v st hp
    simp only [assertCompatibleVersion, hp]
    rw [if_pos (by decide)]
  · intro v st hp
    simp only [assertCompatibleVersion, hp]
    rw [if_neg (by decide)]
    exact ⟨rfl, by
      cases st with
      | mk sock buf notifications closedLog time recvCount sentCount =>
        cases sock <;> rfl⟩
  · with_unfolding_all rfl
  · with_unfolding_all rfl
  · with_unfolding_all rfl

/-- Witness for C3 at the concrete boundary version strings. -/
theorem version_gate_half_open_witness :
    assertCompatibleVersion "0.0.2" pcConnected0 = (.ok (), pcConnected0) ∧
    (assertCompatibleVersion "2.0.0" pcConnected0).2.sock = none ∧
    ((assertCompatibleVersion "1.0.0" pcConnected0).1 = .ok () ↔
      (tupleLe VERSION_RANGE_START [1, 0, 0] && tupleLt [1, 0, 0] VERSION_RANGE_STOP)
        = true) :=
  ⟨version_gate_half_open.2.1 "0.0.2" pcConnected0 (by with_unfolding_all rfl),
   (version_gate_half_open.2.2.1 "2.0.0" pcConnected0 (by with_unfolding_all rfl)).2,
   version_gate_half_open.1 "1.0.0" [1, 0, 0] pcConnected0 (by with_unfolding_all rfl)⟩

/-- C9 fails as stated: constructing a Job with the owner missing does
raise the validation `ValueError`, but only after network I/O — the
construction-time connect and the version RPC — has already been
performed (the recorded network trace is non-empty). -/
theorem job_init_validation_counterexample :
    ¬ ((jobInit jiEnvStart jaNoOwner pcDisconnected0 0).1 =
         .error (.valueError "An owner must be specified.") →
       (jobInit jiEnvStart jaNoOwner pcDisconnected0 0).2.2 = []) := by
  intro h
  have h2 := h (by with_unfolding_all rfl)
  rw [show (jobInit jiEnvStart jaNoOwner pcDisconnected0 0).2.2 =
        [.connectTo, .rpc "version"] by with_unfolding_all rfl] at h2
  exact absurd h2 (by decide)

/-- C9 amended: `where_is` keyword validation and `create_job` owner
validation are raised with the transport untouched, before any network
I/O of that operation; but the owner and machine/tags validation in
`Job.__init__` is raised only after the construction-time connect and
version exchange (network I/O), though before any `create_job` request
is sent. -/
theorem client_validation_timing_amended :
    (∀ (env : PCEnv) (fuel : Nat) (st : PCState) (keys : List String) (tmo : Option ℚ),
       keys.contains "owner" = false →
       createJob env fuel st keys tmo =
         (.error (.serverException (.str "owner must be specified for all jobs.")), st)) ∧
    (∀ (env : PCEnv) (fuel : Nat) (st : PCState) (kws : List String) (tmo : Option ℚ),
       acceptableWhereIsKwargs.any (fun s => kwSetEq kws s) = false →
       whereIs env fuel st kws tmo =
         (.error (.serverException (.str "Invalid arguments")), st)) ∧
    (∀ (env : JobInitEnv) (a : JobArgs) (pc : PCState) (sid : Nat) (hn : String),
       a.hostname = some hn → a.resumeJobId = none → a.owner = none →
       (assertCompatibleVersion env.serverVersion (pc.connect sid)).1 = .ok () →
       jobInit env a pc sid =
         (.error (.valueError "An owner must be specified."),
          (assertCompatibleVersion env.serverVersion (pc.connect sid)).2,
          [.connectTo, .rpc "version"])) ∧
    (∀ (env : JobInitEnv) (a : JobArgs) (pc : PCState) (sid : Nat) (hn : String),
       a.hostname = some hn → a.resumeJobId = none →
       a.owner.isSome = true → a.tags.isSome = true → a.machine.isSome = true →
       (assertCompatibleVersion env.serverVersion (pc.connect sid)).1 = .ok () →
       jobInit env a pc sid =
         (.error (.valueError "Only one of tags and machine may be specified."),
          (assertCompatibleVersion env.serverVersion (pc.connect sid)).2,
          [.connectTo, .rpc "version"])) := by
  refine ⟨?_, ?_, ?_, ?_⟩
  · intro env fuel st keys tmo h
    simp only [createJob, h]
    rw [if_neg (by simp)]
  · intro env fuel st kws tmo h
    simp only [whereIs, h]
    rw [if_neg (by simp)]
  · intro env a pc sid hn hh hr ho hv
    simp only [jobInit, hh, hr, ho]
    rcases hA : assertCompatibleVersion env.serverVersion (pc.connect sid) with ⟨r, pc2⟩
    rw [hA] at hv
    simp only at hv
    subst hv
    rfl
  · intro env a pc sid hn hh hr ho ht hm hv
    simp only [jobInit, hh, hr]
    rcases hA : assertCompatibleVersion env.serverVersion (pc.connect sid) with ⟨r, pc2⟩
    rw [hA] at hv
    simp only at hv
    subst hv
    rcases hO : a.owner with _ | ow
    · rw [hO] at ho; exact absurd ho (by simp)
    · simp only [ht, hm, Bool.and_self, if_true]

/-- Witness for the amended C9 at concrete inputs. -/
theorem client_validation_timing_amended_witness :
    createJob envInstant 1 pcConnected0 ["keepalive", "machine"] none =
      (.error (.serverException (.str "owner must be specified for all jobs.")),
       pcConnected0) ∧
    whereIs envInstant 1 pcConnected0 ["job_id", "chip_x"] none =
      (.error (.serverException (.str "Invalid arguments")), pcConnected0) ∧
    jobInit jiEnvStart jaNoOwner pcDisconnected0 0 =
      (.error (.valueError "An owner must be specified."),
       (assertCompatibleVersion jiEnvStart.serverVersion (pcDisconnected0.connect 0)).2,
       [.connectTo, .rpc "version"]) ∧
    jobInit jiEnvStart jaMachineAndTags pcDisconnected0 0 =
      (.error (.valueError "Only one of tags and machine may be specified."),
       (assertCompatibleVersion jiEnvStart.serverVersion (pcDisconnected0.connect 0)).2,
       [.connectTo, .rpc "version"]) :=
  ⟨client_validation_timing_amended.1 envInstant 1 pcConnected0 ["keepalive", "machine"]
     none (by with_unfolding_all decide),
   client_validation_timing_amended.2.1 envInstant 1 pcConnected0 ["job_id", "chip_x"]
     none (by with_unfolding_all decide),
   client_validation_timing_amended.2.2.1 jiEnvStart jaNoOwner pcDisconnected0 0
     "spalloc" rfl rfl rfl (by with_unfolding_all rfl),
   client_validation_timing_amended.2.2.2 jiEnvStart jaMachineAndTags pcDisconnected0 0
     "spalloc" rfl rfl rfl rfl rfl (by with_unfolding_all rfl)⟩

theorem callLoop_classifies (env : PCEnv) :
    ∀ (n fuel : Nat) (st : PCState) (s : Nat), n < fuel → st.sock = some s →
      (∀ i, i < n → ((env.line (st.recvCount + i)).hasKey "return" = false ∧
                     (env.line (st.recvCount + i)).hasKey "exception" = false)) →
      (((env.line (st.recvCount + n)).hasKey "return" = true →
         (callLoop env fuel st none).1 =
           .ok ((env.line (st.recvCount + n)).get "return") ∧
         (callLoop env fuel st none).2.notifications =
           st.notifications ++ (List.range n).map (fun i => env.line (st.recvCount + i))) ∧
       ((env.line (st.recvCount + n)).hasKey "return" = false →
        (env.line (st.recvCount + n)).hasKey "exception" = true →
         (callLoop env fuel st none).1 =
           .error (.serverException ((env.line (st.recvCount + n)).get "exception")) ∧
         (callLoop env fuel st none).2.notifications =
           st.notifications ++ (List.range n).map (fun i => env.line (st.recvCount + i)))) := by
  intro n
  induction n with
  | zero =>
    intro fuel st s hn hs _
    obtain ⟨m, rfl⟩ : ∃ m, fuel = m + 1 := ⟨fuel - 1, by omega⟩
    constructor
    · intro hret
      rw [Nat.add_zero] at hret ⊢
      simp [callLoop, timedOut, timeLeft, recvJson, hs, hret]
    · intro hret hexc
      rw [Nat.add_zero] at hret hexc ⊢
      simp [callLoop, timedOut, timeLeft, recvJson, hs, hret, hexc]
  | succ n ih =>
    intro fuel st s hn hs hpre
    obtain ⟨m, rfl⟩ : ∃ m, fuel = m + 1 := ⟨fuel - 1, by omega⟩
    have h0 := hpre 0 (by omega)
    rw [Nat.add_zero] at h0
    have hstep : callLoop env (m + 1) st none =
        callLoop env m
          { st with time := st.time + env.dur st.recvCount,
                    recvCount := st.recvCount + 1,
                    notifications := st.notifications ++ [env.line st.recvCount] }
          none := by
      simp [callLoop, timedOut, timeLeft, recvJson, hs, h0.1, h0.2]
    have ih2 := ih m
      { st with time := st.time + env.dur st.recvCount,
                recvCount := st.recvCount + 1,
                notifications := st.notifications ++ [env.line st.recvCount] }
      s (by omega) hs
      (by
        intro i hi
        have := hpre (i + 1) (by omega)
        simpa [Nat.add_assoc, Nat.add_comm 1 i] using this)
    have hidx : st.recvCount + 1 + n = st.recvCount + (n + 1) := by omega
    rw [hidx] at ih2
    have hlist :
        (st.notifications ++ [env.line st.recvCount]) ++
          (List.range n).map (fun i => env.line (st.recvCount + 1 + i)) =
        st.notifications ++
          (List.range (n + 1)).map (fun i => env.line (st.recvCount + i)) := by
      rw [List.range_succ_eq_map, List.map_cons, List.map_map, List.append_assoc]
      congr 1
      rw [List.singleton_append]
      congr 1
      apply List.map_congr_left
      intro i _
      simp only [Function.comp_apply]
      congr 1
      omega
    rw [hlist] at ih2
    rw [hstep]
    exact ih2

/-- C5: after the request is sent, `call` reads incoming lines in
order: all leading lines carrying neither a `"return"` nor an
`"exception"` key are appended, in arrival order, to the internal FIFO
notification queue (and are not what `call` returns); the first line
carrying a `"return"` key ends the call returning that value, and a
first line carrying an `"exception"` key (and no `"return"` key) raises
the server-exception error with the server value. -/
theorem call_classifies_reply_lines (env : PCEnv) (n fuel : Nat) (st : PCState)
    (s : Nat) (hn : n < fuel) (hs : st.sock = some s)
    (hpre : ∀ i, i < n →
      ((env.line (st.recvCount + i)).hasKey "return" = false ∧
       (env.line (st.recvCount + i)).hasKey "exception" = false)) :
    (((env.line (st.recvCount + n)).hasKey "return" = true →
       (call env fuel st none).1 =
         .ok ((env.line (st.recvCount + n)).get "return") ∧
       (call env fuel st none).2.notifications =
         st.notifications ++ (List.range n).map (fun i => env.line (st.recvCount + i))) ∧
     ((env.line (st.recvCount + n)).hasKey "return" = false →
      (env.line (st.recvCount + n)).hasKey "exception" = true →
       (call env fuel st none).1 =
         .error (.serverException ((env.line (st.recvCount + n)).get "exception")) ∧
       (call env fuel st none).2.notifications =
         st.notifications ++ (List.range n).map (fun i => env.line (st.recvCount + i)))) := by
  have hc : call env fuel st none =
      callLoop env fuel
        { st with time := st.time + env.sendDur st.sentCount,
                  sentCount := st.sentCount + 1 } none := by
    simp only [call, makeTimeout, Option.map_none', sendJson, hs]
  rw [hc]
  exact callLoop_classifies env n fuel
    { st with time := st.time + env.sendDur st.sentCount, sentCount := st.sentCount + 1 }
    s hn hs hpre

/-- Witness for C5: one notification line then a return line. -/
theorem call_classifies_reply_lines_witness :
    (call envNotifThenReturn 2 pcConnected0 none).1 = .ok (.int 42) ∧
    (call envNotifThenReturn 2 pcConnected0 none).2.notifications =
      [[("jobs_changed", JVal.arr [.int 1])]] := by
  have h := (call_classifies_reply_lines envNotifThenReturn 1 2 pcConnected0 0
    (by decide) rfl
    (by
      intro i hi
      have : i = 0 := by omega
      subst this
      exact ⟨by with_unfolding_all rfl, by with_unfolding_all rfl⟩)).1
    (by with_unfolding_all rfl)
  constructor
  · rw [h.1]
    with_unfolding_all rfl
  · rw [h.2]
    with_unfolding_all rfl

/-- C10 (implicit): when the overall deadline of `call` has expired by
the time the receive loop checks it — which is what happens when only
notification lines arrive, each within the remaining budget, until the
budget is gone — `call` falls off its loop and returns Python `None`
(`JVal.null`) rather than raising a timeout error (first conjunct); a
concrete such run returns exactly `.ok JVal.null` after queueing the
notifications (second and third conjuncts), which is the very value a
`"return": null` reply produces (fourth conjunct), so the caller cannot
tell the two apart. -/
theorem call_deadline_expiry_returns_none :
    (∀ (env : PCEnv) (st : PCState) (f : ℚ) (fuel : Nat), f ≤ st.time →
       callLoop env (fuel + 1) st (some f) = (.ok .null, st)) ∧
    ((call envOnlyNotifications 5 pcConnected0 (some 10)).1 = .ok .null ∧
     (call envOnlyNotifications 5 pcConnected0 (some 10)).2.notifications =
       [[("jobs_changed", JVal.arr [])], [("jobs_changed", JVal.arr [])]]) ∧
    (call envReturnNull 5 pcConnected0 (some 10)).1 = .ok .null := by
  refine ⟨?_, ⟨?_, ?_⟩, ?_⟩
  · intro env st f fuel h
    simp [callLoop, timedOut, h]
  · with_unfolding_all rfl
  · with_unfolding_all rfl
  · with_unfolding_all rfl

/-- Witness for C10 at a concrete expired deadline. -/
theorem call_deadline_expiry_returns_none_witness :
    callLoop envInstant 1 pcConnected0 (some 0) = (.ok .null, pcConnected0) :=
  call_deadline_expiry_returns_none.1 envInstant pcConnected0 0 0
    (by show (0:ℚ) ≤ 0; norm_num)

theorem wfscInner_benign (env : JobEnv) (cfg : JobCfg) (f : ℚ)
    (hk : ∀ k, env.keepaliveR k ≠ .exc .serverException) :
    ∀ (fuel : Nat) (w : JobWorld),
      (wfscInner env cfg (some f) fuel w).1 ≠ .pyTypeError ∧
      (wfscInner env cfg (some f) fuel w).1 ≠ .raised .serverException := by
  intro fuel
  induction fuel with
  | zero =>
    intro w
    exact ⟨by simp [wfscInner], by simp [wfscInner]⟩
  | succ fuel ih =>
    intro w
    cases hsb : stillBefore (some f) w.time with
    | false =>
      constructor <;> simp [wfscInner, hsb]
    | true =>
      rcases hKA : env.keepaliveR w.nKeepalive with _ | e
      · -- the keepalive RPC succeeded
        rcases hck : cfg.keepalive with _ | ka
        · -- no keepalive interval configured: the budget is the time left
          by_cases h0 : (0:ℚ) ≤ f - (w.time + env.keepaliveD w.nKeepalive)
          · cases hB : env.waitNotifBroken w.nWaitNotif with
            | true =>
              constructor <;>
                simp [wfscInner, JobWorld.keepaliveCall, JobWorld.waitNotif,
                  hsb, hKA, hck, h0, hB]
            | false =>
              by_cases hD : env.waitNotifD w.nWaitNotif ≤
                  f - (w.time + env.keepaliveD w.nKeepalive)
              · constructor <;>
                  simp [wfscInner, JobWorld.keepaliveCall, JobWorld.waitNotif,
                    hsb, hKA, hck, h0, hB, hD]
              · constructor <;>
                  simp only [wfscInner, JobWorld.keepaliveCall, JobWorld.waitNotif,
                    hsb, hKA, hck, h0, hB, hD, if_true, if_false, ite_true, ite_false,
                    if_pos, reduceIte] <;>
                  first
                    | exact (ih _).1
                    | exact (ih _).2
          · constructor <;>
              first
                | (simp [wfscInner, JobWorld.keepaliveCall, hsb, hKA, hck, h0]
                   <;> exact (ih _).1)
                | (simp [wfscInner, JobWorld.keepaliveCall, hsb, hKA, hck, h0]
                   <;> exact (ih _).2)
        · -- keepalive interval configured: budget is a pyMin
          by_cases h0 : (0:ℚ) ≤
              pyMin (ka / 2) (f - (w.time + env.keepaliveD w.nKeepalive))
          · cases hB : env.waitNotifBroken w.nWaitNotif with
            | true =>
              constructor <;>
                simp [wfscInner, JobWorld.keepaliveCall, JobWorld.waitNotif,
                  hsb, hKA, hck, h0, hB]
            | false =>
              by_cases hD : env.waitNotifD w.nWaitNotif ≤
                  pyMin (ka / 2) (f - (w.time + env.keepaliveD w.nKeepalive))
              · constructor <;>
                  simp [wfscInner, JobWorld.keepaliveCall, JobWorld.waitNotif,
                    hsb, hKA, hck, h0, hB, hD]
              · constructor <;>
                  first
                    | (simp [wfscInner, JobWorld.keepaliveCall, JobWorld.waitNotif,
                         hsb, hKA, hck, h0, hB, hD]
                       <;> exact (ih _).1)
                    | (simp [wfscInner, JobWorld.keepaliveCall, JobWorld.waitNotif,
                         hsb, hKA, hck, h0, hB, hD]
                       <;> exact (ih _).2)
          · constructor <;>
              first
                | (simp [wfscInner, JobWorld.keepaliveCall, hsb, hKA, hck, h0]
                   <;> exact (ih _).1)
                | (simp [wfscInner, JobWorld.keepaliveCall, hsb, hKA, hck, h0]
                   <;> exact (ih _).2)
      · -- the keepalive RPC raised e, which propagates to the outer handler
        have he : e ≠ .serverException := by
          intro hc
          rw [hc] at hKA
          exact absurd hKA (hk w.nKeepalive)
        constructor <;>
          simp [wfscInner, JobWorld.keepaliveCall, hsb, hKA, he]

theorem wfscMid_benign (env : JobEnv) (cfg : JobCfg) (old : JobState) (f : ℚ)
    (hg : ∀ k, env.getStateR k ≠ .exc .serverException)
    (hgs : ∀ k t, env.getStateR k = .ok t → t.state = old)
    (hk : ∀ k, env.keepaliveR k ≠ .exc .serverException) :
    ∀ (fuel : Nat) (w : JobWorld),
      (∀ s, (wfscMid env cfg old (some f) fuel w).1 ≠ .retState s) ∧
      (wfscMid env cfg old (some f) fuel w).1 ≠ .pyTypeError ∧
      (wfscMid env cfg old (some f) fuel w).1 ≠ .raised .serverException := by
  intro fuel
  induction fuel with
  | zero =>
    intro w
    exact ⟨fun s => by simp [wfscMid], by simp [wfscMid], by simp [wfscMid]⟩
  | succ fuel ih =>
    intro w
    cases hsb : stillBefore (some f) w.time with
    | false =>
      exact ⟨fun s => by simp [wfscMid, hsb], by simp [wfscMid, hsb],
             by simp [wfscMid, hsb]⟩
    | true =>
      rcases hGS : env.getStateR w.nGetState with t | e
      · have hts : t.state = old := hgs _ _ hGS
        rcases hI : wfscInner env cfg (some f) (fuel + 1)
            { w with time := w.time + env.getStateD w.nGetState,
                     nGetState := w.nGetState + 1 } with ⟨ri, wi⟩
        have hIb := wfscInner_benign env cfg f hk (fuel + 1)
          { w with time := w.time + env.getStateD w.nGetState,
                   nGetState := w.nGetState + 1 }
        rw [hI] at hIb
        simp only at hIb
        cases ri with
        | breakOut =>
          refine ⟨fun s => ?_, ?_, ?_⟩ <;>
            simp [wfscMid, hsb, JobWorld.getState, hGS, hts, hI] <;>
            first
              | exact (ih wi).1 s
              | exact (ih wi).2.1
              | exact (ih wi).2.2
        | returnOld =>
          refine ⟨fun s => ?_, ?_, ?_⟩ <;>
            simp [wfscMid, hsb, JobWorld.getState, hGS, hts, hI]
        | raised e =>
          have he : e ≠ .serverException := by
            intro hc
            exact hIb.2 (by rw [hc])
          refine ⟨fun s => ?_, ?_, ?_⟩ <;>
            simp [wfscMid, hsb, JobWorld.getState, hGS, hts, hI, he]
        | pyTypeError => exact absurd rfl hIb.1
        | fuelOut =>
          refine ⟨fun s => ?_, ?_, ?_⟩ <;>
            simp [wfscMid, hsb, JobWorld.getState, hGS, hts, hI]
      · have he : e ≠ .serverException := by
          intro hc
          rw [hc] at hGS
          exact absurd hGS (hg w.nGetState)
        refine ⟨fun s => ?_, ?_, ?_⟩ <;>
          simp [wfscMid, hsb, JobWorld.getState, hGS, he]

theorem wfscOuter_timeout_no_change (env : JobEnv) (cfg : JobCfg) (old : JobState)
    (f : ℚ)
    (hgs : ∀ k t, env.getStateR k = .ok t → t.state = old)
    (hg : ∀ k, env.getStateR k ≠ .exc .serverException)
    (hn : ∀ k, env.notifyR k ≠ .exc .serverException)
    (hk : ∀ k, env.keepaliveR k ≠ .exc .serverException) :
    ∀ (fuel : Nat) (w : JobWorld),
      (wfscOuter env cfg old (some f) fuel w).1 = .ok old ∨
      (wfscOuter env cfg old (some f) fuel w).1 = .error .fuelOut := by
  intro fuel
  induction fuel with
  | zero =>
    intro w
    right
    simp [wfscOuter]
  | succ fuel ih =>
    intro w
    cases hsb : stillBefore (some f) w.time with
    | false =>
      left
      simp [wfscOuter, hsb]
    | true =>
      rcases hN : env.notifyR w.nNotify with _ | e
      · rcases hM : wfscMid env cfg old (some f) (fuel + 1)
            { w with time := w.time + env.notifyD w.nNotify,
                     nNotify := w.nNotify + 1 } with ⟨rm, wm⟩
        have hMb := wfscMid_benign env cfg old f hg hgs hk (fuel + 1)
          { w with time := w.time + env.notifyD w.nNotify,
                   nNotify := w.nNotify + 1 }
        rw [hM] at hMb
        simp only at hMb
        cases rm with
        | retState s => exact absurd rfl (hMb.1 s)
        | returnOld =>
          left
          simp [wfscOuter, hsb, JobWorld.notify, hN, hM]
        | fellThrough =>
          have hred : wfscOuter env cfg old (some f) (fuel + 1) w =
              wfscOuter env cfg old (some f) fuel wm := by
            simp [wfscOuter, hsb, JobWorld.notify, hN, hM]
          rw [hred]
          exact ih wm
        | raised e =>
          have he : e ≠ .serverException := fun hc => hMb.2.2 (by rw [hc])
          have hred : wfscOuter env cfg old (some f) (fuel + 1) w =
              wfscOuter env cfg old (some f) fuel
                (reconnectStep env cfg (some f) wm) := by
            cases e with
            | protocolTimeout => simp [wfscOuter, hsb, JobWorld.notify, hN, hM]
            | osError => simp [wfscOuter, hsb, JobWorld.notify, hN, hM]
            | serverException => exact absurd rfl he
          rw [hred]
          exact ih _
        | pyTypeError => exact absurd rfl hMb.2.1
        | fuelOut =>
          right
          simp [wfscOuter, hsb, JobWorld.notify, hN, hM]
      · have he : e ≠ .serverException := by
          intro hc
          rw [hc] at hN
          exact absurd hN (hn w.nNotify)
        have hred : wfscOuter env cfg old (some f) (fuel + 1) w =
            wfscOuter env cfg old (some f) fuel
              (reconnectStep env cfg (some f)
                { w with time := w.time + env.notifyD w.nNotify,
                         nNotify := w.nNotify + 1 }) := by
          cases e with
          | protocolTimeout => simp [wfscOuter, hsb, JobWorld.notify, hN]
          | osError => simp [wfscOuter, hsb, JobWorld.notify, hN]
          | serverException => exact absurd rfl he
        rw [hred]
        exact ih _

/-- C2: for every starting state `old`, whenever the deadline given to
`wait_for_state_change(old, timeout)` elapses with every state the
server reports equal to `old` (and the server raising no
application-level exception, which the retry loop would not catch), the
call returns `old` unchanged rather than raising: its only outcomes are
`old` itself or the fuel artifact of the bounded model — never a
timeout exception, an I/O exception, or the latent `TypeError`. -/
theorem wait_for_state_change_timeout_returns_old
    (env : JobEnv) (cfg : JobCfg) (old : JobState) (t : ℚ) (fuel : Nat) (w : JobWorld)
    (hgs : ∀ k st, env.getStateR k = .ok st → st.state = old)
    (hg : ∀ k, env.getStateR k ≠ .exc .serverException)
    (hn : ∀ k, env.notifyR k ≠ .exc .serverException)
    (hk : ∀ k, env.keepaliveR k ≠ .exc .serverException) :
    (waitForStateChange env cfg old (some t) fuel w).1 = .ok old ∨
    (waitForStateChange env cfg old (some t) fuel w).1 = .error .fuelOut := by
  have hw : waitForStateChange env cfg old (some t) fuel w =
      wfscOuter env cfg old (some (w.time + t)) fuel w := by
    simp [waitForStateChange, makeTimeout]
  rw [hw]
  exact wfscOuter_timeout_no_change env cfg old (w.time + t) hgs hg hn hk fuel w

/-- Witness for C2 on a concrete oracle whose job never leaves
`queued`. -/
theorem wait_for_state_change_timeout_returns_old_witness :
    (waitForStateChange jenvQueued jcfg0 .queued (some 5) 6 jw0).1 = .ok .queued ∨
    (waitForStateChange jenvQueued jcfg0 .queued (some 5) 6 jw0).1 =
      .error .fuelOut :=
  wait_for_state_change_timeout_returns_old jenvQueued jcfg0 .queued 5 6 jw0
    (fun k st h => by injection h with h1; cases h1; rfl)
    (fun k h => by cases h)
    (fun k h => by cases h)
    (fun k h => by cases h)

/-- C1: the `wait_until_ready` loop classifies each fetched job state:
with the deadline not yet passed, a fetched `ready` state returns
successfully; a fetched `destroyed` state raises the job-destroyed
error carrying the reason of a fresh state fetch (so in the
destroyed-with-reason scenario, exactly the server-supplied reason
string); a fetched `unknown` state raises the job-destroyed error with
the fixed message; a fetched `queued` or `power` state hands control to
`wait_for_state_change` with exactly the remaining time budget and
loops on the state it reports (propagating its failures); and once the
deadline has passed the loop raises the state-change-timeout error. -/
theorem wait_until_ready_classifies_states :
    (∀ (env : JobEnv) (cfg : JobCfg) (f : ℚ) (fuel : Nat) (w : JobWorld)
       (st : JobStateTuple),
       stillBefore (some f) w.time = true →
       env.getStateR w.nGetState = .ok st → st.state = .ready →
       (wurLoop env cfg (some f) (fuel + 1) w none).1 = .ok ()) ∧
    (∀ (env : JobEnv) (cfg : JobCfg) (f : ℚ) (fuel : Nat) (w : JobWorld)
       (st st2 : JobStateTuple),
       stillBefore (some f) w.time = true →
       env.getStateR w.nGetState = .ok st → st.state = .destroyed →
       env.getStateR (w.nGetState + 1) = .ok st2 →
       (wurLoop env cfg (some f) (fuel + 1) w none).1 =
         .error (.jobDestroyed st2.reason)) ∧
    (∀ (env : JobEnv) (cfg : JobCfg) (f : ℚ) (fuel : Nat) (w : JobWorld)
       (st : JobStateTuple),
       stillBefore (some f) w.time = true →
       env.getStateR w.nGetState = .ok st → st.state = .unknown →
       (wurLoop env cfg (some f) (fuel + 1) w none).1 =
         .error (.jobDestroyed (some "Server no longer recognises job."))) ∧
    (∀ (env : JobEnv) (cfg : JobCfg) (f : ℚ) (fuel : Nat) (w : JobWorld)
       (st : JobStateTuple),
       stillBefore (some f) w.time = true →
       env.getStateR w.nGetState = .ok st →
       (st.state = .queued ∨ st.state = .power) →
       ((∀ (s : JobState) (w2 : JobWorld),
           waitForStateChange env cfg st.state
             (some (f - (w.time + env.getStateD w.nGetState))) (fuel + 1)
             { w with time := w.time + env.getStateD w.nGetState,
                      nGetState := w.nGetState + 1 } = (.ok s, w2) →
           wurLoop env cfg (some f) (fuel + 1) w none =
             wurLoop env cfg (some f) fuel w2 (some s)) ∧
        (∀ (e : WfscErr) (w2 : JobWorld),
           waitForStateChange env cfg st.state
             (some (f - (w.time + env.getStateD w.nGetState))) (fuel + 1)
             { w with time := w.time + env.getStateD w.nGetState,
                      nGetState := w.nGetState + 1 } = (.error e, w2) →
           wurLoop env cfg (some f) (fuel + 1) w none =
             (.error (wurErrOfWfsc e), w2)))) ∧
    (∀ (env : JobEnv) (cfg : JobCfg) (f : ℚ) (fuel : Nat) (w : JobWorld)
       (cur? : Option JobState),
       stillBefore (some f) w.time = false →
       (wurLoop env cfg (some f) (fuel + 1) w cur?).1 =
         .error .stateChangeTimeout) := by
  refine ⟨?_, ?_, ?_, ?_, ?_⟩
  · intro env cfg f fuel w st hsb hGS hst
    simp [wurLoop, hsb, JobWorld.getState, hGS, hst]
  · intro env cfg f fuel w st st2 hsb hGS hst hGS2
    simp [wurLoop, hsb, JobWorld.getState, hGS, hst, hGS2]
  · intro env cfg f fuel w st hsb hGS hst
    simp [wurLoop, hsb, JobWorld.getState, hGS, hst]
  · intro env cfg f fuel w st hsb hGS hst
    constructor
    · intro s w2 hW
      rcases hst with hst | hst <;> rw [hst] at hW <;>
        simp [wurLoop, hsb, JobWorld.getState, hGS, hst, hW]
    · intro e w2 hW
      rcases hst with hst | hst <;> rw [hst] at hW <;> cases e <;>
        simp [wurLoop, hsb, JobWorld.getState, hGS, hst, hW, wurErrOfWfsc]
  · intro env cfg f fuel w cur? hsb
    simp [wurLoop, hsb]

/-- Witness for C1: concrete runs for the ready, destroyed (with the
spec scenario reason "out of boards"), unknown, and deadline-expired
classifications. -/
theorem wait_until_ready_classifies_states_witness :
    (wurLoop jenvReady jcfg0 (some 5) 6 jw0 none).1 = .ok () ∧
    (wurLoop jenvDestroyed jcfg0 (some 5) 6 jw0 none).1 =
      .error (.jobDestroyed (some "out of boards")) ∧
    (wurLoop jenvUnknown jcfg0 (some 5) 6 jw0 none).1 =
      .error (.jobDestroyed (some "Server no longer recognises job.")) ∧
    (wurLoop jenvQueued jcfg0 (some 0) 1 jw0 none).1 = .error .stateChangeTimeout :=
  ⟨wait_until_ready_classifies_states.1 jenvReady jcfg0 5 5 jw0 tupReady
     (by with_unfolding_all rfl) rfl rfl,
   wait_until_ready_classifies_states.2.1 jenvDestroyed jcfg0 5 5 jw0 tupDestroyed
     tupDestroyed (by with_unfolding_all rfl) rfl rfl rfl,
   wait_until_ready_classifies_states.2.2.1 jenvUnknown jcfg0 5 5 jw0 tupUnknown
     (by with_unfolding_all rfl) rfl rfl,
   wait_until_ready_classifies_states.2.2.2.2 jenvQueued jcfg0 0 0 jw0 none
     (by with_unfolding_all rfl)⟩
